import Mathlib

/-!
Verification of the FormBuilder left-panel component.

The repository holds three variants of the same React component:
* the unified chat variant (`handleSendMessage` / `handleInitialFormGeneration`
  / `handleJsonEdit`), embedded below in namespace `Chat`;
* the intermediate variant with an embedded edit-chat sub-panel
  (`handleChatSend`), embedded in namespace `Mid`;
* the original generate-only variant (`handleGenerateForm` in
  `left-panel.tsx`), embedded in namespace `LP`.

The theme-management code (`applyTheme` and the theme-initialising effect)
is identical across the variants and is embedded once in namespace `Theme`.

React state setters become explicit state passing; the opaque `apiRequest`
collaborator becomes an environment value describing the outcome of each
endpoint call; thrown JS values become an explicit `thrownErr` field
(`some m` for an `Error` whose message is `m`, `none` for a thrown
non-`Error` value); emitted toasts, issued network requests and every
intermediate value passed to `setChatHistory` are collected in a log.
-/

/-- JS `String.prototype.trim`, written as structural recursion so that
concrete instances evaluate inside the kernel. -/
def jsTrim (s : String) : String :=
  ⟨((s.data.dropWhile Char.isWhitespace).reverse.dropWhile Char.isWhitespace).reverse⟩

/-- `FormConfig` is an opaque, externally defined JSON document; the
component never inspects it, so it is modelled as an opaque wrapper. -/
structure FormConfig where
  data : String
deriving DecidableEq

/-- Message roles used by the chat transcript. -/
inductive Role where
  | user
  | assistant
  | system
deriving DecidableEq

/-- The `ChatMessage` type of the unified chat variant.  `timestamp`
models `new Date()` as an abstract tick supplied to each handler. -/
structure ChatMessage where
  role : Role
  content : String
  timestamp : Nat
  isGenerating : Bool := false
  jsonData : Option FormConfig := none
deriving DecidableEq

/-- A toast notification as passed to `toast({...})`. -/
structure Toast where
  title : String
  description : String
  destructive : Bool := false
deriving DecidableEq

/-- A network request issued through `apiRequest`: either a POST to
`/api/prompt` with a prompt, or a POST to `/api/edit-json` with the
current JSON and an instruction. -/
inductive Request where
  | generate (prompt : String)
  | edit (json : FormConfig) (instruction : String)
deriving DecidableEq

/-- Body of a successful `/api/prompt` response.  `config := none`
models a success body in which the `config` field is missing. -/
structure PromptResponseBody where
  id : Nat
  config : Option FormConfig
deriving DecidableEq

/-- Body of a successful `/api/edit-json` response; `config := none`
models a missing `config` field. -/
structure EditResponseBody where
  config : Option FormConfig
deriving DecidableEq

/-- Outcome of one `apiRequest` call: a parsed success body, or a thrown
value (`msg = some m` for an `Error` with message `m`, `msg = none` for a
thrown non-`Error` value such as a non-2xx rejection without a message). -/
inductive ApiOutcome (α : Type) where
  | ok (body : α)
  | err (msg : Option String)
deriving DecidableEq

/-- The remote-gateway environment for one submission: what each endpoint
would answer if called. -/
structure ApiEnv where
  promptApi : ApiOutcome PromptResponseBody
  editApi : ApiOutcome EditResponseBody
deriving DecidableEq

/-- Log of the observable effects of one handler run: network requests
issued, toasts emitted, and each chat-history value passed to
`setChatHistory`, in order. -/
structure StepLog where
  requests : List Request := []
  toasts : List Toast := []
  histories : List (List ChatMessage) := []
deriving DecidableEq

/-- Classifies the outcome of a `/api/prompt` call as the handlers see it:
`some m` when the call fails with thrown value `m` (either the request
threw, or the success body lacks `config`, which the code turns into
`throw new Error("Invalid response from server")`); `none` on success. -/
def promptCallFailure : ApiOutcome PromptResponseBody → Option (Option String)
  | .err m => some m
  | .ok body =>
    match body.config with
    | none => some (some "Invalid response from server")
    | some _ => none

/-- Same classification for a `/api/edit-json` call in the unified
variant (which checks `res.config`). -/
def editCallFailure : ApiOutcome EditResponseBody → Option (Option String)
  | .err m => some m
  | .ok body =>
    match body.config with
    | none => some (some "Invalid response from server")
    | some _ => none

namespace Chat

/-- State of the unified chat variant: its `useState` hooks plus the
shared form context's committed configuration (`formConfig`). -/
structure ChatState where
  prompt : String
  chatHistory : List ChatMessage
  isGenerating : Bool
  statusText : String
  statusColor : String
  formConfig : Option FormConfig
deriving DecidableEq

/-- Result of an inner async handler (`handleInitialFormGeneration` or
`handleJsonEdit`): the state after it ran (including updates made before
a throw), `thrownErr = some m` if it threw, and its effect log. -/
structure InnerResult where
  state : ChatState
  thrownErr : Option (Option String) := none
  log : StepLog := {}
deriving DecidableEq

/-- Embedding of `handleInitialFormGeneration` (part_000, first variant):
sets status, POSTs the prompt, throws on failure or missing `config`,
otherwise commits the config, removes the loading message, appends the
success message and toasts success. -/
def handleInitialFormGeneration (env : ApiEnv) (now : Nat) (promptText : String)
    (st : ChatState) : InnerResult :=
  let st1 := { st with statusText := "Generating form...", statusColor := "bg-yellow-500" }
  match env.promptApi with
  | .err m =>
    { state := st1, thrownErr := some m,
      log := { requests := [.generate promptText] } }
  | .ok data =>
    match data.config with
    | none =>
      { state := st1, thrownErr := some (some "Invalid response from server"),
        log := { requests := [.generate promptText] } }
    | some cfg =>
      let st2 := { st1 with formConfig := some cfg,
                            statusText := "Form generated successfully",
                            statusColor := "bg-green-500" }
      let h1 := st2.chatHistory.filter (fun ms => !ms.isGenerating)
      let successMsg : ChatMessage :=
        { role := .assistant,
          content := "✅ Form generated successfully! Here\x27s the JSON. You can now ask me to modify specific parts of the form.",
          timestamp := now,
          jsonData := some cfg }
      let h2 := h1 ++ [successMsg]
      { state := { st2 with chatHistory := h2 },
        log := { requests := [.generate promptText],
                 toasts := [{ title := "Success",
                              description := "Form configuration generated successfully" }],
                 histories := [h1, h2] } }

/-- Embedding of `handleJsonEdit` (part_000, first variant): throws if no
configuration exists (before any request), POSTs the current config with
the instruction, throws on failure or missing `config`, otherwise commits
the returned config, removes the loading message, appends the success
message and toasts success. -/
def handleJsonEdit (env : ApiEnv) (now : Nat) (instruction : String)
    (st : ChatState) : InnerResult :=
  match st.formConfig with
  | none =>
    { state := st, thrownErr := some (some "No form configuration to edit") }
  | some cfg =>
    match env.editApi with
    | .err m =>
      { state := st, thrownErr := some m,
        log := { requests := [.edit cfg instruction] } }
    | .ok res =>
      match res.config with
      | none =>
        { state := st, thrownErr := some (some "Invalid response from server"),
          log := { requests := [.edit cfg instruction] } }
      | some newCfg =>
        let st1 := { st with formConfig := some newCfg }
        let h1 := st1.chatHistory.filter (fun ms => !ms.isGenerating)
        let successMsg : ChatMessage :=
          { role := .assistant,
            content := "✅ Form updated successfully! Here\x27s the updated JSON. You can continue making changes or test the form.",
            timestamp := now,
            jsonData := some newCfg }
        let h2 := h1 ++ [successMsg]
        { state := { st1 with chatHistory := h2 },
          log := { requests := [.edit cfg instruction],
                   toasts := [{ title := "Success",
                                description := "Form configuration updated successfully" }],
                   histories := [h1, h2] } }

/-- Embedding of `handleSendMessage` (part_000, first variant): rejects
blank input, appends the user message and a `Generating...` placeholder,
branches on the presence of a committed config, and on a thrown error
removes the placeholder, appends the error message and toasts; the
`finally` clause clears `isGenerating` on every path past the guard. -/
def handleSendMessage (env : ApiEnv) (now : Nat) (userText : String)
    (st : ChatState) : ChatState × StepLog :=
  if jsTrim userText = "" then (st, {})
  else
    let userMessage : ChatMessage := { role := .user, content := userText, timestamp := now }
    let h1 := st.chatHistory ++ [userMessage]
    let tempAssistantMsg : ChatMessage :=
      { role := .assistant, content := "Generating...", timestamp := now, isGenerating := true }
    let h2 := h1 ++ [tempAssistantMsg]
    let st1 := { st with chatHistory := h2, prompt := "", isGenerating := true }
    let r :=
      if st1.formConfig.isNone then handleInitialFormGeneration env now userText st1
      else handleJsonEdit env now userText st1
    match r.thrownErr with
    | none =>
      ({ r.state with isGenerating := false },
       { requests := r.log.requests, toasts := r.log.toasts,
         histories := [h1, h2] ++ r.log.histories })
    | some m =>
      let h3 := r.state.chatHistory.filter (fun ms => !ms.isGenerating)
      let errorMsg : ChatMessage :=
        { role := .assistant,
          content := "Error: " ++ m.getD "Something went wrong",
          timestamp := now }
      let h4 := h3 ++ [errorMsg]
      ({ r.state with chatHistory := h4, isGenerating := false },
       { requests := r.log.requests,
         toasts := r.log.toasts ++
           [{ title := "Error", description := m.getD "Failed to process request",
              destructive := true }],
         histories := [h1, h2] ++ r.log.histories ++ [h3, h4] })

end Chat

namespace Mid

/-- Chat message of the intermediate variant: `{ role, content }`. -/
structure MidMessage where
  role : Role
  content : String
deriving DecidableEq

/-- State of the intermediate variant touched by `handleChatSend`: its
chat transcript, the locally edited configuration, and the shared form
context's committed configuration (which `handleChatSend` never writes). -/
structure MidState where
  chatHistory : List MidMessage
  editedConfig : Option FormConfig
  formConfig : Option FormConfig
deriving DecidableEq

/-- Embedding of `handleChatSend` (part_000, second variant): silently
returns when `editedConfig` is absent or the text is blank; otherwise
appends the user message, POSTs the edited config with the instruction,
and on success stores `res.config` (unchecked) into `editedConfig` and
appends the confirmation; a thrown error only toasts. -/
def handleChatSend (env : ApiOutcome EditResponseBody) (userText : String)
    (st : MidState) : MidState × StepLog :=
  match st.editedConfig with
  | none => (st, {})
  | some cfg =>
    if jsTrim userText = "" then (st, {})
    else
      let h1 := st.chatHistory ++ [{ role := .user, content := userText }]
      let st1 := { st with chatHistory := h1 }
      match env with
      | .ok res =>
        ({ st1 with editedConfig := res.config,
                    chatHistory := h1 ++
                      [{ role := .assistant, content := "✅ Done! Here’s the updated JSON." }] },
         { requests := [.edit cfg userText] })
      | .err _ =>
        (st1,
         { requests := [.edit cfg userText],
           toasts := [{ title := "Error", description := "Failed to apply your edit.",
                        destructive := true }] })

end Mid

namespace LP

/-- State of the generate-only variant (`left-panel.tsx`). -/
structure LPState where
  prompt : String
  isGenerating : Bool
  statusText : String
  statusColor : String
  formConfig : Option FormConfig
deriving DecidableEq

/-- Embedding of `handleGenerateForm` (`left-panel.tsx`): a blank prompt
is rejected with a destructive toast and nothing else; otherwise the
prompt is POSTed, a success with `config` commits it, a missing `config`
or thrown error lands in the catch block with a destructive toast, and
`finally` clears `isGenerating`. -/
def handleGenerateForm (env : ApiOutcome PromptResponseBody) (st : LPState) :
    LPState × StepLog :=
  if jsTrim st.prompt = "" then
    (st, { toasts := [{ title := "Error", description := "Please enter a prompt",
                        destructive := true }] })
  else
    let st1 := { st with isGenerating := true, statusText := "Generating form...",
                         statusColor := "bg-yellow-500" }
    let req := Request.generate st.prompt
    match env with
    | .ok data =>
      match data.config with
      | some cfg =>
        ({ st1 with formConfig := some cfg, statusText := "Form generated successfully",
                    statusColor := "bg-green-500", isGenerating := false },
         { requests := [req],
           toasts := [{ title := "Success",
                        description := "Form configuration generated successfully" }] })
      | none =>
        ({ st1 with statusText := "Form generation failed", statusColor := "bg-red-500",
                    isGenerating := false },
         { requests := [req],
           toasts := [{ title := "Error", description := "Invalid response from server",
                        destructive := true }] })
    | .err m =>
      ({ st1 with statusText := "Form generation failed", statusColor := "bg-red-500",
                  isGenerating := false },
       { requests := [req],
         toasts := [{ title := "Error", description := m.getD "Failed to generate form",
                      destructive := true }] })

end LP

namespace Theme

/-- Document and storage state touched by the theme manager: the root
element's class list, the inline `--font-primary` custom property
(`none` when set from an undefined lookup), the durable
`localStorage["theme-preset"]` value, and emitted toasts. -/
structure ThemeWorld where
  classList : List String
  fontPrimary : Option String
  themePreset : Option String
  toasts : List Toast
deriving DecidableEq

/-- The classes removed by `applyTheme` before adding the new marker. -/
def themeMarkerClasses : List String :=
  ["theme-modern", "theme-classic", "theme-elegant", "theme-minimalist", "theme-vibrant", "dark"]

/-- The five enumerated theme names offered in the dropdown. -/
def themeNames : List String :=
  ["modern", "classic", "elegant", "minimalist", "vibrant"]

/-- The `fontMap` record lookup: defined exactly on the five theme names,
`none` (JS `undefined`) otherwise. -/
def fontMap (themeName : String) : Option String :=
  if themeName = "modern" then some "\x27Poppins\x27, sans-serif"
  else if themeName = "classic" then some "\x27Merriweather\x27, serif"
  else if themeName = "elegant" then some "\x27Playfair Display\x27, serif"
  else if themeName = "minimalist" then some "\x27Inter\x27, sans-serif"
  else if themeName = "vibrant" then some "\x27Montserrat\x27, sans-serif"
  else none

/-- `DOMTokenList.add`: appends the token unless already present. -/
def classListAdd (cl : List String) (c : String) : List String :=
  if c ∈ cl then cl else cl ++ [c]

/-- Embedding of `applyTheme` (identical in part_000 and
`left-panel.tsx`): removes the six marker classes, adds
`theme-<name>`, persists the name, sets the font from `fontMap` (an
unchecked lookup), and toasts. -/
def applyTheme (themeName : String) (w : ThemeWorld) : ThemeWorld :=
  let cl := w.classList.filter (fun c => decide (c ∉ themeMarkerClasses))
  let cl := classListAdd cl ("theme-" ++ themeName)
  { classList := cl
    fontPrimary := fontMap themeName
    themePreset := some themeName
    toasts := w.toasts ++
      [{ title := "Theme Changed",
         description := "Applied " ++ themeName ++ " theme and font" }] }

/-- Embedding of the theme-initialising `useEffect`: reads the stored
name, with JS `||` replacing both a missing value and the empty string by
`"modern"`, then applies it. -/
def initTheme (w : ThemeWorld) : ThemeWorld :=
  let savedTheme :=
    match w.themePreset with
    | none => "modern"
    | some s => if s = "" then "modern" else s
  applyTheme savedTheme w

/-- A simulated persistence reload: a fresh document (empty class list,
no inline font) with the persisted theme key, run through the startup
effect. -/
def reload (storedTheme : Option String) : ThemeWorld :=
  initTheme { classList := [], fontPrimary := none, themePreset := storedTheme, toasts := [] }

end Theme

/-- `true` iff the transcript holds no `isGenerating` placeholder. -/
def placeholderFree (h : List ChatMessage) : Bool :=
  h.all (fun ms => !ms.isGenerating)

/-- `true` iff every element other than the last is not a placeholder
(so any placeholder present is the most recently appended element). -/
def onlyLastGen (h : List ChatMessage) : Bool :=
  h.dropLast.all (fun ms => !ms.isGenerating)

/-- Number of `isGenerating` placeholders in the transcript. -/
def placeholderCount (h : List ChatMessage) : Nat :=
  h.countP (fun ms => ms.isGenerating)

theorem placeholderFree_filter (h : List ChatMessage) :
    placeholderFree (h.filter (fun ms => !ms.isGenerating)) = true := by
  simp only [placeholderFree, List.all_eq_true]
  intro ms hms
  exact (List.mem_filter.mp hms).2

theorem placeholderFree_append (h : List ChatMessage) (msg : ChatMessage)
    (hp : placeholderFree h = true) (hm : msg.isGenerating = false) :
    placeholderFree (h ++ [msg]) = true := by
  simp only [placeholderFree, List.all_append, List.all_cons, List.all_nil,
    Bool.and_true, Bool.and_eq_true] at *
  exact ⟨hp, by simp [hm]⟩

theorem placeholderCount_of_free (h : List ChatMessage)
    (hp : placeholderFree h = true) : placeholderCount h = 0 := by
  simp only [placeholderFree, List.all_eq_true] at hp
  simp only [placeholderCount, List.countP_eq_zero]
  intro a ha
  simpa using hp a ha

theorem onlyLastGen_of_free (h : List ChatMessage)
    (hp : placeholderFree h = true) : onlyLastGen h = true := by
  simp only [placeholderFree, List.all_eq_true] at hp
  simp only [onlyLastGen, List.all_eq_true]
  intro ms hms
  exact hp ms (List.dropLast_subset h hms)

theorem onlyLastGen_concat (h : List ChatMessage) (msg : ChatMessage)
    (hp : placeholderFree h = true) : onlyLastGen (h ++ [msg]) = true := by
  simpa only [onlyLastGen, List.dropLast_concat] using hp

theorem placeholderCount_concat (h : List ChatMessage) (msg : ChatMessage)
    (hp : placeholderFree h = true) :
    placeholderCount (h ++ [msg]) ≤ 1 := by
  have h0 := placeholderCount_of_free h hp
  simp only [placeholderCount] at h0 ⊢
  rw [List.countP_append, h0]
  simp only [List.countP_cons, List.countP_nil]
  split <;> simp

theorem placeholderCount_le_one_of_free (h : List ChatMessage)
    (hp : placeholderFree h = true) : placeholderCount h ≤ 1 := by
  simp [placeholderCount_of_free h hp]

/-! Concrete sample values used by witnesses and counterexamples. -/

def sampleConfigA : FormConfig := { data := "fields-a" }

def sampleConfigB : FormConfig := { data := "fields-b" }

def chatState0 : Chat.ChatState :=
  { prompt := "", chatHistory := [], isGenerating := false,
    statusText := "Ready", statusColor := "bg-green-500", formConfig := none }

def chatStateWithConfig : Chat.ChatState :=
  { chatState0 with formConfig := some sampleConfigA }

def envOk : ApiEnv :=
  { promptApi := .ok { id := 1, config := some sampleConfigA },
    editApi := .ok { config := some sampleConfigB } }

def envErrNoMsg : ApiEnv :=
  { promptApi := .err none, editApi := .err none }

def lpStateReady : LP.LPState :=
  { prompt := "make a form", isGenerating := false, statusText := "Ready",
    statusColor := "bg-green-500", formConfig := none }

def lpStateBlank : LP.LPState :=
  { lpStateReady with prompt := "   " }

/-- C1: for every submission of non-empty prompt text, the operation is
determined solely by the presence of a committed `FormConfig`: absent,
the only request issued is a generate with the prompt text; present, the
only request issued is an edit with the committed configuration and the
instruction text — whatever the gateway answers. -/
theorem routing_by_committed_config (env : ApiEnv) (now : Nat) (t : String)
    (st : Chat.ChatState) (ht : jsTrim t ≠ "") :
    (st.formConfig = none →
      (Chat.handleSendMessage env now t st).2.requests = [Request.generate t]) ∧
    (∀ cfg, st.formConfig = some cfg →
      (Chat.handleSendMessage env now t st).2.requests = [Request.edit cfg t]) := by
  constructor
  · intro hc
    cases henv : env.promptApi with
    | err m => simp [Chat.handleSendMessage, ht, hc, Chat.handleInitialFormGeneration, henv]
    | ok body =>
      cases hb : body.config <;>
        simp [Chat.handleSendMessage, ht, hc, Chat.handleInitialFormGeneration, henv, hb]
  · intro cfg hc
    cases henv : env.editApi with
    | err m => simp [Chat.handleSendMessage, ht, hc, Chat.handleJsonEdit, henv]
    | ok body =>
      cases hb : body.config <;>
        simp [Chat.handleSendMessage, ht, hc, Chat.handleJsonEdit, henv, hb]

/-- C1 witness: with no committed config the prompt routes to generate;
with one, the same machinery routes to edit carrying that config. -/
theorem routing_by_committed_config_witness :
    (Chat.handleSendMessage envOk 0 "make a form" chatState0).2.requests
        = [Request.generate "make a form"] ∧
    (Chat.handleSendMessage envOk 0 "add a phone field" chatStateWithConfig).2.requests
        = [Request.edit sampleConfigA "add a phone field"] := by
  refine ⟨(routing_by_committed_config envOk 0 "make a form" chatState0 (by decide)).1 rfl, ?_⟩
  exact (routing_by_committed_config envOk 0 "add a phone field" chatStateWithConfig
    (by decide)).2 sampleConfigA rfl

/-- C8: after every submission that passes the blank-input guard, the
generating flag is cleared again on completion — success, thrown error or
malformed body alike — in both the chat variant and the generate-only
variant. -/
theorem returns_to_idle :
    (∀ (env : ApiEnv) (now : Nat) (t : String) (st : Chat.ChatState), jsTrim t ≠ "" →
      (Chat.handleSendMessage env now t st).1.isGenerating = false) ∧
    (∀ (env : ApiOutcome PromptResponseBody) (st : LP.LPState), jsTrim st.prompt ≠ "" →
      (LP.handleGenerateForm env st).1.isGenerating = false) := by
  constructor
  · intro env now t st ht
    cases hc : st.formConfig with
    | none =>
      cases henv : env.promptApi with
      | err m => simp [Chat.handleSendMessage, ht, hc, Chat.handleInitialFormGeneration, henv]
      | ok body =>
        cases hb : body.config <;>
          simp [Chat.handleSendMessage, ht, hc, Chat.handleInitialFormGeneration, henv, hb]
    | some cfg =>
      cases henv : env.editApi with
      | err m => simp [Chat.handleSendMessage, ht, hc, Chat.handleJsonEdit, henv]
      | ok body =>
        cases hb : body.config <;>
          simp [Chat.handleSendMessage, ht, hc, Chat.handleJsonEdit, henv, hb]
  · intro env st ht
    cases env with
    | err m => simp [LP.handleGenerateForm, ht]
    | ok body => cases hb : body.config <;> simp [LP.handleGenerateForm, ht, hb]

/-- C8 witness: a failing submission in each variant still ends with the
generating flag cleared. -/
theorem returns_to_idle_witness :
    (Chat.handleSendMessage envErrNoMsg 0 "make a form" chatState0).1.isGenerating = false ∧
    (LP.handleGenerateForm (.err none) lpStateReady).1.isGenerating = false := by
  refine ⟨returns_to_idle.1 envErrNoMsg 0 "make a form" chatState0 (by decide), ?_⟩
  exact returns_to_idle.2 (.err none) lpStateReady (by decide)

/-- C2: a failing generate or edit call — thrown error or a success body
missing `config` — leaves the committed configuration in the shared
context exactly as it was before the call, in the chat variant and in the
generate-only variant. -/
theorem failure_preserves_committed_config :
    (∀ (env : ApiEnv) (now : Nat) (t : String) (st : Chat.ChatState),
      (st.formConfig = none → (promptCallFailure env.promptApi).isSome) →
      (st.formConfig ≠ none → (editCallFailure env.editApi).isSome) →
      (Chat.handleSendMessage env now t st).1.formConfig = st.formConfig) ∧
    (∀ (env : ApiOutcome PromptResponseBody) (st : LP.LPState),
      (promptCallFailure env).isSome →
      (LP.handleGenerateForm env st).1.formConfig = st.formConfig) := by
  constructor
  · intro env now t st hgen hedit
    by_cases ht : jsTrim t = ""
    · simp [Chat.handleSendMessage, ht]
    · cases hc : st.formConfig with
      | none =>
        have hfail := hgen hc
        cases henv : env.promptApi with
        | err m => simp [Chat.handleSendMessage, ht, hc, Chat.handleInitialFormGeneration, henv]
        | ok body =>
          cases hb : body.config with
          | none => simp [Chat.handleSendMessage, ht, hc, Chat.handleInitialFormGeneration, henv, hb]
          | some cfg => simp [promptCallFailure, henv, hb] at hfail
      | some cfg =>
        have hfail := hedit (by simp [hc])
        cases henv : env.editApi with
        | err m => simp [Chat.handleSendMessage, ht, hc, Chat.handleJsonEdit, henv]
        | ok body =>
          cases hb : body.config with
          | none => simp [Chat.handleSendMessage, ht, hc, Chat.handleJsonEdit, henv, hb]
          | some newCfg => simp [editCallFailure, henv, hb] at hfail
  · intro env st hfail
    by_cases ht : jsTrim st.prompt = ""
    · simp [LP.handleGenerateForm, ht]
    · cases henv : env with
      | err m => simp [LP.handleGenerateForm, ht]
      | ok body =>
        cases hb : body.config with
        | none => simp [LP.handleGenerateForm, ht, hb]
        | some cfg => simp [promptCallFailure, henv, hb] at hfail

/-- C2 witness: a thrown gateway error leaves the committed config
untouched in both variants, starting from a committed `sampleConfigA` in
the chat variant and from no config in the generate-only variant. -/
theorem failure_preserves_committed_config_witness :
    (Chat.handleSendMessage envErrNoMsg 0 "add a phone field" chatStateWithConfig).1.formConfig
        = some sampleConfigA ∧
    (LP.handleGenerateForm (.err none) lpStateReady).1.formConfig = none := by
  constructor
  · exact failure_preserves_committed_config.1 envErrNoMsg 0 "add a phone field"
      chatStateWithConfig (by intro h; simp [envErrNoMsg, promptCallFailure])
      (by intro h; simp [envErrNoMsg, editCallFailure])
  · exact failure_preserves_committed_config.2 (.err none) lpStateReady
      (by simp [promptCallFailure])

theorem histProps_append_one_nongen (h : List ChatMessage) (a : ChatMessage)
    (hp : placeholderFree h = true) (ha : a.isGenerating = false) :
    placeholderCount (h ++ [a]) ≤ 1 ∧ onlyLastGen (h ++ [a]) = true :=
  have hfree := placeholderFree_append h a hp ha
  ⟨placeholderCount_le_one_of_free _ hfree, onlyLastGen_of_free _ hfree⟩

theorem histProps_append_nongen_gen (h : List ChatMessage) (a b : ChatMessage)
    (hp : placeholderFree h = true) (ha : a.isGenerating = false) :
    placeholderCount (h ++ [a, b]) ≤ 1 ∧ onlyLastGen (h ++ [a, b]) = true := by
  have hsplit : h ++ [a, b] = (h ++ [a]) ++ [b] := by simp
  have hfree := placeholderFree_append h a hp ha
  rw [hsplit]
  exact ⟨placeholderCount_concat _ b hfree, onlyLastGen_concat _ b hfree⟩

theorem placeholderFree_append_two (h : List ChatMessage) (a b : ChatMessage)
    (hp : placeholderFree h = true) (ha : a.isGenerating = false)
    (hb : b.isGenerating = false) : placeholderFree (h ++ [a, b]) = true := by
  have hsplit : h ++ [a, b] = (h ++ [a]) ++ [b] := by simp
  rw [hsplit]
  exact placeholderFree_append _ b (placeholderFree_append h a hp ha) hb

theorem histProps_append_two_nongen (h : List ChatMessage) (a b : ChatMessage)
    (hp : placeholderFree h = true) (ha : a.isGenerating = false)
    (hb : b.isGenerating = false) :
    placeholderCount (h ++ [a, b]) ≤ 1 ∧ onlyLastGen (h ++ [a, b]) = true :=
  have hfree := placeholderFree_append_two h a b hp ha hb
  ⟨placeholderCount_le_one_of_free _ hfree, onlyLastGen_of_free _ hfree⟩

/-- C4: starting from a transcript with no placeholder, every transcript
value ever passed to `setChatHistory` during a submission holds at most
one `isGenerating` placeholder, any placeholder present is the most
recently appended element, and the transcript the submission ends with is
placeholder-free again (so the invariant holds at every point of the
machine's execution). -/
theorem placeholder_unique_and_last (env : ApiEnv) (now : Nat) (t : String)
    (st : Chat.ChatState) (hp : placeholderFree st.chatHistory = true) :
    (∀ hh ∈ (Chat.handleSendMessage env now t st).2.histories,
        placeholderCount hh ≤ 1 ∧ onlyLastGen hh = true) ∧
    placeholderFree (Chat.handleSendMessage env now t st).1.chatHistory = true := by
  by_cases ht : jsTrim t = ""
  · simp [Chat.handleSendMessage, ht, hp]
  · cases hc : st.formConfig with
    | none =>
      cases henv : env.promptApi with
      | err m =>
        simp [Chat.handleSendMessage, ht, hc, Chat.handleInitialFormGeneration, henv]
        exact ⟨⟨histProps_append_one_nongen _ _ hp rfl,
          histProps_append_nongen_gen _ _ _ hp rfl,
          histProps_append_one_nongen _ _ (placeholderFree_filter _) rfl,
          (histProps_append_two_nongen _ _ _ (placeholderFree_filter _) rfl rfl).1,
          (histProps_append_two_nongen _ _ _ (placeholderFree_filter _) rfl rfl).2⟩,
          placeholderFree_append_two _ _ _ (placeholderFree_filter _) rfl rfl⟩
      | ok body =>
        cases hb : body.config with
        | none =>
          simp [Chat.handleSendMessage, ht, hc, Chat.handleInitialFormGeneration, henv, hb]
          exact ⟨⟨histProps_append_one_nongen _ _ hp rfl,
            histProps_append_nongen_gen _ _ _ hp rfl,
            histProps_append_one_nongen _ _ (placeholderFree_filter _) rfl,
            (histProps_append_two_nongen _ _ _ (placeholderFree_filter _) rfl rfl).1,
            (histProps_append_two_nongen _ _ _ (placeholderFree_filter _) rfl rfl).2⟩,
            placeholderFree_append_two _ _ _ (placeholderFree_filter _) rfl rfl⟩
        | some cfg =>
          simp [Chat.handleSendMessage, ht, hc, Chat.handleInitialFormGeneration, henv, hb]
          exact ⟨⟨histProps_append_one_nongen _ _ hp rfl,
            histProps_append_nongen_gen _ _ _ hp rfl,
            histProps_append_one_nongen _ _ (placeholderFree_filter _) rfl,
            (histProps_append_two_nongen _ _ _ (placeholderFree_filter _) rfl rfl).1,
            (histProps_append_two_nongen _ _ _ (placeholderFree_filter _) rfl rfl).2⟩,
            placeholderFree_append_two _ _ _ (placeholderFree_filter _) rfl rfl⟩
    | some cfg =>
      cases henv : env.editApi with
      | err m =>
        simp [Chat.handleSendMessage, ht, hc, Chat.handleJsonEdit, henv]
        exact ⟨⟨histProps_append_one_nongen _ _ hp rfl,
          histProps_append_nongen_gen _ _ _ hp rfl,
          histProps_append_one_nongen _ _ (placeholderFree_filter _) rfl,
          (histProps_append_two_nongen _ _ _ (placeholderFree_filter _) rfl rfl).1,
          (histProps_append_two_nongen _ _ _ (placeholderFree_filter _) rfl rfl).2⟩,
          placeholderFree_append_two _ _ _ (placeholderFree_filter _) rfl rfl⟩
      | ok body =>
        cases hb : body.config with
        | none =>
          simp [Chat.handleSendMessage, ht, hc, Chat.handleJsonEdit, henv, hb]
          exact ⟨⟨histProps_append_one_nongen _ _ hp rfl,
            histProps_append_nongen_gen _ _ _ hp rfl,
            histProps_append_one_nongen _ _ (placeholderFree_filter _) rfl,
            (histProps_append_two_nongen _ _ _ (placeholderFree_filter _) rfl rfl).1,
            (histProps_append_two_nongen _ _ _ (placeholderFree_filter _) rfl rfl).2⟩,
            placeholderFree_append_two _ _ _ (placeholderFree_filter _) rfl rfl⟩
        | some newCfg =>
          simp [Chat.handleSendMessage, ht, hc, Chat.handleJsonEdit, henv, hb]
          exact ⟨⟨histProps_append_one_nongen _ _ hp rfl,
            histProps_append_nongen_gen _ _ _ hp rfl,
            histProps_append_one_nongen _ _ (placeholderFree_filter _) rfl,
            (histProps_append_two_nongen _ _ _ (placeholderFree_filter _) rfl rfl).1,
            (histProps_append_two_nongen _ _ _ (placeholderFree_filter _) rfl rfl).2⟩,
            placeholderFree_append_two _ _ _ (placeholderFree_filter _) rfl rfl⟩

/-- C4 witness: from the clean initial transcript, a concrete submission
keeps the placeholder invariant and ends placeholder-free. -/
theorem placeholder_unique_and_last_witness :
    placeholderFree (Chat.handleSendMessage envOk 0 "make a form" chatState0).1.chatHistory
      = true := by
  exact (placeholder_unique_and_last envOk 0 "make a form" chatState0 (by decide)).2

/-- C5 counterexample: in `handleGenerateForm` (`left-panel.tsx`), a
whitespace-only prompt issues no request and changes nothing, but it is
not silent — a destructive "Please enter a prompt" toast is emitted,
contradicting the claim that no notification is emitted. -/
theorem empty_prompt_not_silent_counterexample :
    jsTrim lpStateBlank.prompt = "" ∧
    (LP.handleGenerateForm (.err none) lpStateBlank).2.requests = [] ∧
    (LP.handleGenerateForm (.err none) lpStateBlank).1 = lpStateBlank ∧
    (LP.handleGenerateForm (.err none) lpStateBlank).2.toasts
      = [{ title := "Error", description := "Please enter a prompt", destructive := true }] ∧
    (LP.handleGenerateForm (.err none) lpStateBlank).2.toasts ≠ [] := by
  refine ⟨by decide, by decide, by decide, by decide, by decide⟩

/-- C5 amended: a blank submission never appends a message and never
issues a request in any variant; in the chat variant and the intermediate
chat-send it is fully silent (no state change, no toast), while the
generate-button path emits a destructive "Please enter a prompt" toast. -/
theorem empty_input_rejection :
    (∀ (env : ApiEnv) (now : Nat) (t : String) (st : Chat.ChatState), jsTrim t = "" →
      Chat.handleSendMessage env now t st = (st, {})) ∧
    (∀ (env : ApiOutcome EditResponseBody) (t : String) (st : Mid.MidState), jsTrim t = "" →
      Mid.handleChatSend env t st = (st, {})) ∧
    (∀ (env : ApiOutcome PromptResponseBody) (st : LP.LPState), jsTrim st.prompt = "" →
      LP.handleGenerateForm env st =
        (st, { toasts := [{ title := "Error", description := "Please enter a prompt",
                            destructive := true }] })) := by
  refine ⟨fun env now t st ht => by simp [Chat.handleSendMessage, ht], fun env t st ht => ?_,
    fun env st ht => by simp [LP.handleGenerateForm, ht]⟩
  cases hc : st.editedConfig with
  | none => simp [Mid.handleChatSend, hc]
  | some cfg => simp [Mid.handleChatSend, hc, ht]

/-- C5 amended witness: a whitespace-only submission is silent in the
chat variant and toast-only in the generate-only variant. -/
theorem empty_input_rejection_witness :
    Chat.handleSendMessage envOk 0 "   " chatState0 = (chatState0, {}) ∧
    LP.handleGenerateForm (.err none) lpStateBlank =
      (lpStateBlank, { toasts := [{ title := "Error", description := "Please enter a prompt",
                                    destructive := true }] }) := by
  refine ⟨empty_input_rejection.1 envOk 0 "   " chatState0 (by decide), ?_⟩
  exact empty_input_rejection.2.2 (.err none) lpStateBlank (by decide)

def midState0 : Mid.MidState :=
  { chatHistory := [], editedConfig := some sampleConfigA, formConfig := none }

def midStateNoConfig : Mid.MidState :=
  { chatHistory := [], editedConfig := none, formConfig := none }

def envErrMsg : ApiEnv :=
  { promptApi := .err (some "boom"), editApi := .err (some "boom") }

/-- C3 counterexample: in the intermediate variant, a successful edit
call (`handleChatSend`) stores the server-returned configuration only in
the local `editedConfig`; the committed configuration in the shared
context stays `none`, not the server-returned value. -/
theorem edit_not_committed_counterexample :
    (Mid.handleChatSend (.ok { config := some sampleConfigB }) "add a phone field"
        midState0).1.editedConfig = some sampleConfigB ∧
    (Mid.handleChatSend (.ok { config := some sampleConfigB }) "add a phone field"
        midState0).1.formConfig = none ∧
    (none : Option FormConfig) ≠ some sampleConfigB := by decide

/-- C3 amended: in the unified chat variant every successful edit call
replaces the committed configuration wholesale with exactly the
server-returned configuration; in the intermediate variant the successful
edit wholesale-replaces only the local `editedConfig` with the response's
`config` field and leaves the shared context untouched (it is committed
only later by the "Apply Changes to Form" action). -/
theorem edit_whole_value_replacement :
    (∀ (env : ApiEnv) (now : Nat) (t : String) (st : Chat.ChatState) (cfg newCfg : FormConfig),
      jsTrim t ≠ "" → st.formConfig = some cfg →
      env.editApi = .ok { config := some newCfg } →
      (Chat.handleSendMessage env now t st).1.formConfig = some newCfg) ∧
    (∀ (body : EditResponseBody) (t : String) (st : Mid.MidState) (cfg : FormConfig),
      jsTrim t ≠ "" → st.editedConfig = some cfg →
      (Mid.handleChatSend (.ok body) t st).1.editedConfig = body.config ∧
      (Mid.handleChatSend (.ok body) t st).1.formConfig = st.formConfig) := by
  constructor
  · intro env now t st cfg newCfg ht hc henv
    simp [Chat.handleSendMessage, ht, hc, Chat.handleJsonEdit, henv]
  · intro body t st cfg ht hc
    simp [Mid.handleChatSend, hc, ht]

/-- C3 amended witness: a successful edit commits the fresh server value
in the chat variant, and updates only `editedConfig` in the intermediate
variant. -/
theorem edit_whole_value_replacement_witness :
    (Chat.handleSendMessage envOk 0 "add a phone field" chatStateWithConfig).1.formConfig
      = some sampleConfigB ∧
    (Mid.handleChatSend (.ok { config := some sampleConfigB }) "add a phone field"
        midState0).1.editedConfig = some sampleConfigB := by
  constructor
  · exact edit_whole_value_replacement.1 envOk 0 "add a phone field" chatStateWithConfig
      sampleConfigA sampleConfigB (by decide) rfl rfl
  · exact (edit_whole_value_replacement.2 { config := some sampleConfigB } "add a phone field"
      midState0 sampleConfigA (by decide) rfl).1

/-- C6 counterexample: in the intermediate variant, invoking the edit
operation with no edited configuration sends no request — but it is not
reported as a failure: `handleChatSend` returns silently with no toast
and no transcript change, contradicting "surfaced like other failures". -/
theorem edit_without_config_silent_counterexample :
    Mid.handleChatSend (.ok { config := some sampleConfigB }) "add a phone field"
        midStateNoConfig = (midStateNoConfig, {}) ∧
    (Mid.handleChatSend (.ok { config := some sampleConfigB }) "add a phone field"
        midStateNoConfig).2.toasts = [] := by decide

/-- C6 amended: invoking the edit operation without a configuration never
issues a network request; in the unified variant `handleJsonEdit` throws
"No form configuration to edit" before any call (so the failure is
surfaced like any other thrown failure), while in the intermediate
variant `handleChatSend` silently returns without reporting anything. -/
theorem edit_precondition_violation :
    (∀ (env : ApiEnv) (now : Nat) (instr : String) (st : Chat.ChatState),
      st.formConfig = none →
      Chat.handleJsonEdit env now instr st =
        { state := st, thrownErr := some (some "No form configuration to edit"), log := {} }) ∧
    (∀ (env : ApiOutcome EditResponseBody) (t : String) (st : Mid.MidState),
      st.editedConfig = none → Mid.handleChatSend env t st = (st, {})) := by
  refine ⟨fun env now instr st hc => by simp [Chat.handleJsonEdit, hc],
    fun env t st hc => by simp [Mid.handleChatSend, hc]⟩

/-- C6 amended witness: with no configuration, the unified variant's edit
handler throws before any request and the intermediate variant's edit
handler is a silent no-op. -/
theorem edit_precondition_violation_witness :
    Chat.handleJsonEdit envOk 0 "add a phone field" chatState0 =
      { state := chatState0, thrownErr := some (some "No form configuration to edit"),
        log := {} } ∧
    Mid.handleChatSend (.err none) "add a phone field" midStateNoConfig
      = (midStateNoConfig, {}) := by
  refine ⟨edit_precondition_violation.1 envOk 0 "add a phone field" chatState0 rfl, ?_⟩
  exact edit_precondition_violation.2 (.err none) "add a phone field" midStateNoConfig rfl

/-- C7 counterexample: for a failed generate call whose thrown value has
no description (a non-`Error` value), the appended chat message reads
"Error: Something went wrong" while the toast reads "Failed to process
request" — the two texts do not carry the same description. -/
theorem failure_description_mismatch_counterexample :
    (Chat.handleSendMessage envErrNoMsg 0 "make a form" chatState0).1.chatHistory.getLast?
      = some { role := .assistant, content := "Error: Something went wrong", timestamp := 0 } ∧
    (Chat.handleSendMessage envErrNoMsg 0 "make a form" chatState0).2.toasts
      = [{ title := "Error", description := "Failed to process request", destructive := true }] ∧
    ("Error: Something went wrong" : String) ≠ "Failed to process request" := by decide

/-- C7 amended: for every failed generate or edit call, the placeholder
is removed and an assistant message is appended whose text is "Error: "
followed by the failure's description with fallback "Something went
wrong", while the transient notification carries the description with the
different fallback "Failed to process request"; so the two carry the same
description exactly when the failure has one. -/
theorem failure_reporting (env : ApiEnv) (now : Nat) (t : String) (st : Chat.ChatState)
    (m : Option String) (ht : jsTrim t ≠ "")
    (hf : (st.formConfig = none ∧ promptCallFailure env.promptApi = some m) ∨
          (∃ cfg, st.formConfig = some cfg ∧ editCallFailure env.editApi = some m)) :
    (Chat.handleSendMessage env now t st).1.chatHistory
      = (st.chatHistory.filter (fun ms => !ms.isGenerating))
        ++ [{ role := .user, content := t, timestamp := now },
            { role := .assistant, content := "Error: " ++ m.getD "Something went wrong",
              timestamp := now }] ∧
    (Chat.handleSendMessage env now t st).2.toasts
      = [{ title := "Error", description := m.getD "Failed to process request",
           destructive := true }] := by
  rcases hf with ⟨hc, hfail⟩ | ⟨cfg, hc, hfail⟩
  · cases henv : env.promptApi with
    | err mm =>
      rw [henv] at hfail
      simp only [promptCallFailure, Option.some.injEq] at hfail
      subst hfail
      simp [Chat.handleSendMessage, ht, hc, Chat.handleInitialFormGeneration, henv]
    | ok body =>
      cases hb : body.config with
      | none =>
        rw [henv] at hfail
        simp only [promptCallFailure, hb, Option.some.injEq] at hfail
        subst hfail
        simp [Chat.handleSendMessage, ht, hc, Chat.handleInitialFormGeneration, henv, hb]
      | some cfg =>
        rw [henv] at hfail
        simp [promptCallFailure, hb] at hfail
  · cases henv : env.editApi with
    | err mm =>
      rw [henv] at hfail
      simp only [editCallFailure, Option.some.injEq] at hfail
      subst hfail
      simp [Chat.handleSendMessage, ht, hc, Chat.handleJsonEdit, henv]
    | ok body =>
      cases hb : body.config with
      | none =>
        rw [henv] at hfail
        simp only [editCallFailure, hb, Option.some.injEq] at hfail
        subst hfail
        simp [Chat.handleSendMessage, ht, hc, Chat.handleJsonEdit, henv, hb]
      | some newCfg =>
        rw [henv] at hfail
        simp [editCallFailure, hb] at hfail

/-- C7 amended witness: a failed generate call with description "boom"
yields the chat message "Error: boom" and a toast description "boom". -/
theorem failure_reporting_witness :
    (Chat.handleSendMessage envErrMsg 0 "make a form" chatState0).2.toasts
      = [{ title := "Error", description := "boom", destructive := true }] := by
  exact (failure_reporting envErrMsg 0 "make a form" chatState0 (some "boom") (by decide)
    (Or.inl ⟨rfl, rfl⟩)).2

theorem Theme.mem_classListAdd (cl : List String) (c : String) :
    c ∈ Theme.classListAdd cl c := by
  unfold Theme.classListAdd
  split
  · assumption
  · simp

theorem Theme.mem_of_mem_classListAdd {cl : List String} {x c : String}
    (h : c ∈ Theme.classListAdd cl x) : c ∈ cl ∨ c = x := by
  unfold Theme.classListAdd at h
  split at h
  · exact Or.inl h
  · simpa using List.mem_append.mp h

def themeWorld0 : Theme.ThemeWorld :=
  { classList := ["theme-modern"], fontPrimary := some "\x27Poppins\x27, sans-serif",
    themePreset := some "modern", toasts := [] }

/-- C9: every `applyTheme(name)` call persists `name` under the durable
theme key; a startup with nothing stored applies the default "modern";
and for each of the five theme names, applying it and then reloading
re-applies exactly that theme (class, font and stored key) with no user
interaction. -/
theorem theme_persistence_roundtrip :
    (∀ (w : Theme.ThemeWorld) (name : String),
      (Theme.applyTheme name w).themePreset = some name) ∧
    ((Theme.reload none).classList = ["theme-modern"] ∧
     (Theme.reload none).fontPrimary = Theme.fontMap "modern" ∧
     (Theme.reload none).themePreset = some "modern") ∧
    (∀ (w : Theme.ThemeWorld) (name : String), name ∈ Theme.themeNames →
      (Theme.reload (Theme.applyTheme name w).themePreset).classList = ["theme-" ++ name] ∧
      (Theme.reload (Theme.applyTheme name w).themePreset).fontPrimary = Theme.fontMap name ∧
      (Theme.reload (Theme.applyTheme name w).themePreset).themePreset = some name) := by
  refine ⟨fun w name => by simp [Theme.applyTheme], ⟨by decide, by decide, by decide⟩, ?_⟩
  intro w name hmem
  have hpre : (Theme.applyTheme name w).themePreset = some name := by simp [Theme.applyTheme]
  rw [hpre]
  simp only [Theme.themeNames, List.mem_cons, List.mem_singleton, List.not_mem_nil,
    or_false] at hmem
  rcases hmem with rfl | rfl | rfl | rfl | rfl <;> exact ⟨by decide, by decide, by decide⟩

/-- C9 witness: applying "classic" then reloading re-applies "classic". -/
theorem theme_persistence_roundtrip_witness :
    (Theme.reload (Theme.applyTheme "classic" themeWorld0).themePreset).classList
      = ["theme-" ++ "classic"] := by
  exact (theme_persistence_roundtrip.2.2 themeWorld0 "classic" (by decide)).1

/-- C10 counterexample: the empty string is persisted by `applyTheme ""`
and is not one of the five theme names, yet at startup the stored `""` is
not re-applied: the JS `||` default replaces it by "modern", which is
applied with a defined font — so not every unknown stored name is
re-applied with an undefined font value. -/
theorem unknown_theme_startup_counterexample :
    (Theme.applyTheme "" themeWorld0).themePreset = some "" ∧
    "" ∉ Theme.themeNames ∧
    (Theme.reload (some "")).classList = ["theme-modern"] ∧
    (Theme.reload (some "")).fontPrimary = some "\x27Poppins\x27, sans-serif" := by decide

/-- C10 amended: `applyTheme` is total over arbitrary strings — it always
removes the marker classes, adds `theme-<name>`, stores `name`
unvalidated, and sets the font to the `fontMap` lookup, which is defined
exactly on the five enumerated names; every unknown stored NON-EMPTY name
is re-applied at startup with an undefined font value, while a stored
empty string is read back as falsy and replaced by the "modern" default. -/
theorem applyTheme_unvalidated_font_domain (w : Theme.ThemeWorld) (name : String) :
    ("theme-" ++ name) ∈ (Theme.applyTheme name w).classList ∧
    (∀ c ∈ Theme.themeMarkerClasses, c ∈ (Theme.applyTheme name w).classList →
      c = "theme-" ++ name) ∧
    (Theme.applyTheme name w).themePreset = some name ∧
    (Theme.applyTheme name w).fontPrimary = Theme.fontMap name ∧
    ((Theme.fontMap name).isSome ↔ name ∈ Theme.themeNames) ∧
    (name ∉ Theme.themeNames → name ≠ "" →
      (Theme.reload (some name)).fontPrimary = none ∧
      (Theme.reload (some name)).classList = ["theme-" ++ name]) := by
  have hiff : (Theme.fontMap name).isSome ↔ name ∈ Theme.themeNames := by
    simp only [Theme.fontMap, Theme.themeNames]
    split_ifs with h1 h2 h3 h4 h5 <;> simp_all
  refine ⟨?_, ?_, by simp [Theme.applyTheme], by simp [Theme.applyTheme], hiff, ?_⟩
  · simp only [Theme.applyTheme]
    exact Theme.mem_classListAdd _ _
  · intro c hcmark hcmem
    simp only [Theme.applyTheme] at hcmem
    rcases Theme.mem_of_mem_classListAdd hcmem with hcf | hceq
    · have hnot := (List.mem_filter.mp hcf).2
      simp at hnot
      exact absurd hcmark hnot
    · exact hceq
  · intro hnot hne
    have hfm : Theme.fontMap name = none := by
      rcases h5 : Theme.fontMap name with _ | v
      · rfl
      · exact absurd (hiff.mp (by simp [h5])) hnot
    constructor
    · simp [Theme.reload, Theme.initTheme, hne, Theme.applyTheme, hfm]
    · simp [Theme.reload, Theme.initTheme, hne, Theme.applyTheme, Theme.classListAdd]

/-- C10 amended witness: an arbitrary unknown name is applied, persisted,
is outside the font map's domain, and is re-applied at startup with an
undefined font. -/
theorem applyTheme_unvalidated_font_domain_witness :
    ("theme-" ++ "unknown") ∈ (Theme.applyTheme "unknown" themeWorld0).classList ∧
    (Theme.applyTheme "unknown" themeWorld0).themePreset = some "unknown" ∧
    (Theme.reload (some "unknown")).fontPrimary = none := by
  refine ⟨(applyTheme_unvalidated_font_domain themeWorld0 "unknown").1,
    (applyTheme_unvalidated_font_domain themeWorld0 "unknown").2.2.1, ?_⟩
  exact ((applyTheme_unvalidated_font_domain themeWorld0 "unknown").2.2.2.2.2
    (by decide) (by decide)).1
